import Mathlib

/-!
Shallow embedding of the `futures-test-sink` crate.

Source files embedded here:
  * `src/mock_sink.rs` — the bounded-buffer mock sink `SinkMock`;
  * `src/lib.rs`       — the discard mock `SinkFeedback` (built by `from_iter`);
  * `src/fuse_last.rs` — the latch-on-last iterator adapter `FuseLast`.

Modelling choices:
  * Rust's `Poll<T>` becomes the inductive `Poll`; `Result<(), E>` becomes
    `Except E Unit`.
  * A deterministic, consumed-once Rust iterator is captured by its trace,
    a function `Nat → Option α`, together with a current position: calling
    `next()` reads the trace at the position and advances it.  This covers
    every script shape the crate uses (finite lists, `repeat`, `cycle`,
    `successors`, `fuse_last`).
  * A `panic!`/`expect`/`unwrap` failure is an explicit `Panic` outcome.
  * The `poll_flush` drain loop of `SinkMock` is not structurally
    terminating (its trip count depends on scripted values), so it is
    embedded with explicit fuel; `fuelOut` marks fuel exhaustion, and
    divergence of the Rust loop is the statement that every fuel amount
    runs out.
  * The waker of the `Context` is modelled by a counter of synchronous
    `wake()` calls, threaded through every poll operation.
-/

namespace FuturesTestSink

/-- Rust `std::task::Poll`. -/
inductive Poll (α : Type) where
  | Ready : α → Poll α
  | Pending : Poll α
  deriving DecidableEq, Repr

/-- The distinct panic sites of the crate. -/
inductive Panic where
  /-- `SinkMock::check_panic`: "Trying use closed sink". -/
  | closedSink
  /-- `SinkMock::start_send`: "`start_send()` called without correct call of `poll_ready()`". -/
  | startSendWithoutReady
  /-- `SinkMock::poll_flush`: "Unexpected end of `flush_feedback` iterator!". -/
  | flushFeedbackExhausted
  /-- `SinkFeedback::poll_ready`: `self.poll_fallback.next().unwrap()` on `None`. -/
  | pollFallbackExhausted
  /-- `SinkFeedback::start_send`: `self.start_send_fallback.next().unwrap()` on `None`. -/
  | startSendFallbackExhausted
  deriving DecidableEq, Repr

/-- State of `SinkMock<FlushI, ReadyI, SendI, Item>` (src/mock_sink.rs).
Each Rust iterator field is a trace `Nat → Option _` plus a position. -/
structure SinkMock (E : Type) where
  flush_feedback : Nat → Option (Poll (Except E Unit))
  flush_pos : Nat
  ready_fallback : Nat → Option E
  ready_pos : Nat
  send_fallback : Nat → Option E
  send_pos : Nat
  max_item : Nat
  item_cnt : Nat
  flush_at_once : Nat
  is_closed : Bool
  can_start_send : Bool

/-- `SinkMock::new` (src/mock_sink.rs lines 94–112). -/
def SinkMock.new {E : Type} (flush_feedback : Nat → Option (Poll (Except E Unit)))
    (ready_fallback send_fallback : Nat → Option E)
    (max_item flush_at_once : Nat) : SinkMock E where
  flush_feedback := flush_feedback
  flush_pos := 0
  ready_fallback := ready_fallback
  ready_pos := 0
  send_fallback := send_fallback
  send_pos := 0
  max_item := max_item
  item_cnt := 0
  flush_at_once := flush_at_once
  is_closed := false
  can_start_send := false

/-- Outcome of a `SinkMock` poll operation: a panic, a returned
`Poll<Result<(), E>>` with the updated sink state and wake counter,
or fuel exhaustion of the embedded drain loop. -/
inductive OpResult (E : Type) where
  | panic : Panic → OpResult E
  | out : Poll (Except E Unit) → SinkMock E → Nat → OpResult E
  | fuelOut : OpResult E

/-- Outcome of `SinkMock::start_send`: a panic, or the returned
`Result<(), E>` with the updated sink state (no waker involved). -/
inductive SendResult (E : Type) where
  | panic : Panic → SendResult E
  | out : Except E Unit → SinkMock E → SendResult E

namespace SinkMock

variable {E : Type}

/-- The `loop` body of `SinkMock::poll_flush` (src/mock_sink.rs lines
188–207), with explicit fuel.  One fuel unit is one loop iteration:
read the next `flush_feedback` value (panic when the script is
exhausted); on `Ready(Ok(()))` saturating-subtract `flush_at_once`
from `item_cnt` and return `Ready(Ok(()))` when the count reaches 0,
otherwise iterate; on `Ready(Err(e))` return it; on `Pending` wake the
waker once and return `Pending`. -/
def pollFlushLoop : Nat → SinkMock E → Nat → OpResult E
  | 0, _, _ => .fuelOut
  | fuel + 1, s, wakes =>
    match s.flush_feedback s.flush_pos with
    | none => .panic .flushFeedbackExhausted
    | some (.Ready (.ok ())) =>
      let s' : SinkMock E :=
        { s with flush_pos := s.flush_pos + 1,
                 item_cnt := s.item_cnt - s.flush_at_once }
      if s'.item_cnt = 0 then .out (.Ready (.ok ())) s' wakes
      else pollFlushLoop fuel s' wakes
    | some (.Ready (.error e)) =>
      .out (.Ready (.error e)) { s with flush_pos := s.flush_pos + 1 } wakes
    | some .Pending =>
      .out .Pending { s with flush_pos := s.flush_pos + 1 } (wakes + 1)

/-- `SinkMock::poll_flush` (src/mock_sink.rs lines 182–208):
`check_panic`, clear `can_start_send`, then run the drain loop. -/
def poll_flush (fuel : Nat) (s : SinkMock E) (wakes : Nat) : OpResult E :=
  if s.is_closed then .panic .closedSink
  else pollFlushLoop fuel { s with can_start_send := false } wakes

/-- `SinkMock::poll_ready` (src/mock_sink.rs lines 144–164):
`check_panic`, clear `can_start_send`, consume one `ready_fallback`
value; on `Some(e)` return `Ready(Err(e))`; else if `max_item >
item_cnt` arm and return `Ready(Ok(()))`; else delegate to
`poll_flush`, arming only on its `Ready(Ok(()))` outcome. -/
def poll_ready (fuel : Nat) (s : SinkMock E) (wakes : Nat) : OpResult E :=
  if s.is_closed then .panic .closedSink
  else
    let s₁ : SinkMock E :=
      { s with can_start_send := false, ready_pos := s.ready_pos + 1 }
    match s.ready_fallback s.ready_pos with
    | some e => .out (.Ready (.error e)) s₁ wakes
    | none =>
      if s₁.max_item > s₁.item_cnt then
        .out (.Ready (.ok ())) { s₁ with can_start_send := true } wakes
      else
        match poll_flush fuel s₁ wakes with
        | .out (.Ready (.ok ())) s₂ wakes' =>
          .out (.Ready (.ok ())) { s₂ with can_start_send := true } wakes'
        | forward => forward

/-- `SinkMock::start_send` (src/mock_sink.rs lines 166–180):
`check_panic`; panic when `can_start_send` is false; else consume one
`send_fallback` value: `Some(e)` yields `Err(e)` (item dropped),
`None` buffers the item (`item_cnt += 1`).  Note: the flag is NOT
cleared here. -/
def start_send (s : SinkMock E) : SendResult E :=
  if s.is_closed then .panic .closedSink
  else if !s.can_start_send then .panic .startSendWithoutReady
  else
    match s.send_fallback s.send_pos with
    | some e => .out (.error e) { s with send_pos := s.send_pos + 1 }
    | none =>
      .out (.ok ()) { s with send_pos := s.send_pos + 1, item_cnt := s.item_cnt + 1 }

/-- `SinkMock::poll_close` (src/mock_sink.rs lines 210–216):
`check_panic`, then `ready!(poll_flush(cx))?`; only a `Ready(Ok(()))`
flush sets `is_closed` and returns `Ready(Ok(()))`; every other flush
outcome is forwarded unchanged. -/
def poll_close (fuel : Nat) (s : SinkMock E) (wakes : Nat) : OpResult E :=
  if s.is_closed then .panic .closedSink
  else
    match poll_flush fuel s wakes with
    | .out (.Ready (.ok ())) s' wakes' =>
      .out (.Ready (.ok ())) { s' with is_closed := true } wakes'
    | forward => forward

end SinkMock

/-- State of `SinkFeedback<E, FI, SSI, Item>` (src/lib.rs): two script
iterators, no buffer, no closed flag. -/
structure SinkFeedback (E : Type) where
  poll_fallback : Nat → Option (Poll (Except E Unit))
  poll_pos : Nat
  start_send_fallback : Nat → Option (Except E Unit)
  ss_pos : Nat

/-- `from_iter` (src/lib.rs lines 241–257): build a `SinkFeedback`
from the two scripts, positions at the start. -/
def from_iter {E : Type} (poll_fallback : Nat → Option (Poll (Except E Unit)))
    (start_send_fallback : Nat → Option (Except E Unit)) : SinkFeedback E where
  poll_fallback := poll_fallback
  poll_pos := 0
  start_send_fallback := start_send_fallback
  ss_pos := 0

/-- Outcome of a `SinkFeedback` poll operation. -/
inductive FPollResult (E : Type) where
  | panic : Panic → FPollResult E
  | out : Poll (Except E Unit) → SinkFeedback E → Nat → FPollResult E

/-- Outcome of `SinkFeedback::start_send`. -/
inductive FSendResult (E : Type) where
  | panic : Panic → FSendResult E
  | out : Except E Unit → SinkFeedback E → FSendResult E

namespace SinkFeedback

variable {E : Type}

/-- `SinkFeedback::poll_ready` (src/lib.rs lines 267–276): unwrap the
next `poll_fallback` value (panic on exhaustion); forward `Ready(t)`;
on `Pending` wake the waker once and return `Pending`. -/
def poll_ready (s : SinkFeedback E) (wakes : Nat) : FPollResult E :=
  match s.poll_fallback s.poll_pos with
  | none => .panic .pollFallbackExhausted
  | some (.Ready t) => .out (.Ready t) { s with poll_pos := s.poll_pos + 1 } wakes
  | some .Pending => .out .Pending { s with poll_pos := s.poll_pos + 1 } (wakes + 1)

/-- `SinkFeedback::start_send` (src/lib.rs lines 278–280): discard the
item and unwrap the next `start_send_fallback` value. -/
def start_send (s : SinkFeedback E) : FSendResult E :=
  match s.start_send_fallback s.ss_pos with
  | none => .panic .startSendFallbackExhausted
  | some r => .out r { s with ss_pos := s.ss_pos + 1 }

/-- `SinkFeedback::poll_flush` (src/lib.rs lines 282–284): delegates to `poll_ready`. -/
def poll_flush (s : SinkFeedback E) (wakes : Nat) : FPollResult E :=
  poll_ready s wakes

/-- `SinkFeedback::poll_close` (src/lib.rs lines 285–287): delegates to `poll_ready`. -/
def poll_close (s : SinkFeedback E) (wakes : Nat) : FPollResult E :=
  poll_ready s wakes

end SinkFeedback

/-- State of `FuseLast<I, Item>` (src/fuse_last.rs lines 50–53).  The
wrapped, fused inner iterator is modelled by the list of items it has
yet to yield (a list iterator is already fused: once empty it stays
empty). -/
structure FuseLast (α : Type) where
  iter : List α
  last_item : Option α

/-- `FuseLast::new` / `IteratorExt::fuse_last` (src/fuse_last.rs lines 60–65). -/
def FuseLast.new {α : Type} (iter : List α) : FuseLast α where
  iter := iter
  last_item := none

/-- `<FuseLast as Iterator>::next` (src/fuse_last.rs lines 74–82): if
the inner iterator yields `Some(v)`, remember `v` and return it; once
exhausted, return the remembered last item forever. -/
def FuseLast.next {α : Type} (f : FuseLast α) : Option α × FuseLast α :=
  match f.iter with
  | v :: rest => (some v, ⟨rest, some v⟩)
  | [] => (f.last_item, f)

/-- The state of a `FuseLast` after `n` calls to `next`. -/
def FuseLast.afterN {α : Type} : FuseLast α → Nat → FuseLast α
  | f, 0 => f
  | f, n + 1 => FuseLast.afterN f.next.2 n

/-- The value produced by the `(n+1)`-th call to `next` (0-indexed). -/
def FuseLast.nthNext {α : Type} (f : FuseLast α) (n : Nat) : Option α :=
  (f.afterN n).next.1

/-! ### Derived specifications and concrete example states -/

/-- The waker discipline of the crate's poll operations: a `Pending`
return wakes the waker exactly once, a `Ready` return never wakes it. -/
def wakeDiscipline {E : Type} (r : Poll (Except E Unit)) (w w' : Nat) : Prop :=
  (r = .Pending → w' = w + 1) ∧ (r ≠ .Pending → w' = w)

/-- The embedded `poll_flush` loop never returns, whatever fuel it is
given: this is how divergence of the Rust `loop` is expressed. -/
def flushDiverges {E : Type} (s : SinkMock E) (w : Nat) : Prop :=
  ∀ fuel, SinkMock.poll_flush fuel s w = .fuelOut

/-- Flush script that always answers `Poll::Ready(Ok(()))` (Rust
`iter::repeat(Poll::Ready(Ok(())))`). -/
def allOkFlush : Nat → Option (Poll (Except Unit Unit)) :=
  fun _ => some (.Ready (.ok ()))

/-- Flush script that always answers `Poll::Pending`. -/
def allPendFlush : Nat → Option (Poll (Except Unit Unit)) :=
  fun _ => some .Pending

/-- An empty error-injection script (Rust `iter::empty()`): reading it
always yields `None`. -/
def noErr : Nat → Option Unit := fun _ => none

/-- A freshly constructed mock with an always-Ok flush script, empty
error scripts, `max_item = 3`, `flush_at_once = 2`
(`SinkMock::with_flush_feedback(iter::repeat(Poll::Ready(Ok(()))))`). -/
def mock0 : SinkMock Unit := SinkMock.new allOkFlush noErr noErr 3 2

/-- `mock0` after one successful `poll_ready`: armed, ready script consumed once. -/
def mock1 : SinkMock Unit := { mock0 with ready_pos := 1, can_start_send := true }

/-- `mock1` after one successful `start_send`: one item buffered.  Note
the arming flag is still set. -/
def mock2 : SinkMock Unit := { mock1 with send_pos := 1, item_cnt := 1 }

/-- `mock2` after a second `start_send` (which the code accepts). -/
def mock3 : SinkMock Unit := { mock2 with send_pos := 2, item_cnt := 2 }

/-- `mock0` with the closed flag set (the state after a successful `poll_close`). -/
def mockClosed : SinkMock Unit := { mock0 with is_closed := true }

/-- A mock whose flush script is empty from the start. -/
def mockNoFlush : SinkMock Unit := SinkMock.new (fun _ => none) noErr noErr 3 2

/-- A mock whose flush script always answers `Pending`. -/
def mockPend : SinkMock Unit := SinkMock.new allPendFlush noErr noErr 3 2

/-- A mock built by `SinkMock::new(.., max_item = 1, flush_at_once = 0)`:
the constructor does not validate `flush_at_once > 0`. -/
def mz0 : SinkMock Unit := SinkMock.new allOkFlush noErr noErr 1 0

/-- `mz0` after one successful `poll_ready`. -/
def mz1 : SinkMock Unit := { mz0 with ready_pos := 1, can_start_send := true }

/-- `mz1` after one successful `start_send`: buffer holds 1 item, batch size 0. -/
def mz2 : SinkMock Unit := { mz1 with send_pos := 1, item_cnt := 1 }

/-- A mock whose readiness-error script injects an error on every readiness check. -/
def mockRErr : SinkMock Unit := SinkMock.new allOkFlush (fun _ => some ()) noErr 3 2

/-- `mock0` with a full buffer (3 items, capacity 3), forcing `poll_ready`
to delegate to `poll_flush`. -/
def mockFull : SinkMock Unit := { mock0 with item_cnt := 3 }

/-- `mockPend` with a full buffer: the delegated flush answers `Pending`. -/
def mockFullPend : SinkMock Unit := { mockPend with item_cnt := 3 }

/-- Start-send script that always answers `Ok(())` (Rust `vec![Ok(())].into_iter().cycle()`). -/
def ssOk : Nat → Option (Except Unit Unit) := fun _ => some (.ok ())

/-- A discard mock whose poll script always answers `Ready(Ok(()))`. -/
def fbOk : SinkFeedback Unit := from_iter (fun _ => some (.Ready (.ok ()))) ssOk

/-- `fbOk` after one poll operation (e.g. after a successful `poll_close`). -/
def fbOk1 : SinkFeedback Unit := { fbOk with poll_pos := 1 }

/-- A discard mock whose poll script always answers `Pending`. -/
def fbPend : SinkFeedback Unit := from_iter (fun _ => some .Pending) ssOk

/-- A discard mock whose start-send script is empty from the start. -/
def fbNoSS : SinkFeedback Unit := from_iter (fun _ => some (.Ready (.ok ()))) (fun _ => none)

/-- A discard mock whose poll script is empty from the start. -/
def fbNoPoll : SinkFeedback Unit := from_iter (fun _ => none) ssOk

/-! ### Helper lemmas about the drain loop -/

/-- The drain loop only touches `flush_pos` and `item_cnt`: every other
field of the sink survives a completed loop unchanged. -/
theorem pollFlushLoop_preserves {E : Type} (fuel : Nat) :
    ∀ (s : SinkMock E) (w : Nat) (r : Poll (Except E Unit)) (s' : SinkMock E) (w' : Nat),
      SinkMock.pollFlushLoop fuel s w = .out r s' w' →
      s'.is_closed = s.is_closed ∧ s'.can_start_send = s.can_start_send ∧
        s'.flush_at_once = s.flush_at_once ∧ s'.max_item = s.max_item := by
  induction fuel with
  | zero =>
    intro s w r s' w' h
    simp [SinkMock.pollFlushLoop] at h
  | succ n ih =>
    intro s w r s' w' h
    rw [SinkMock.pollFlushLoop] at h
    cases hfb : s.flush_feedback s.flush_pos with
    | none => rw [hfb] at h; simp at h
    | some v =>
      rw [hfb] at h
      cases v with
      | Pending =>
        simp at h
        obtain ⟨-, h2, -⟩ := h
        subst h2
        simp
      | Ready res =>
        cases res with
        | error e =>
          simp at h
          obtain ⟨-, h2, -⟩ := h
          subst h2
          simp
        | ok u =>
          cases u
          simp only at h
          by_cases hc : s.item_cnt - s.flush_at_once = 0
          · rw [if_pos (by simpa using hc)] at h
            simp at h
            obtain ⟨-, h2, -⟩ := h
            subst h2
            simp
          · rw [if_neg (by simpa using hc)] at h
            simpa using ih _ _ _ _ _ h

/-- The drain loop obeys the waker discipline: it wakes the waker once
exactly on the `Pending` exit and never otherwise. -/
theorem pollFlushLoop_wakes {E : Type} (fuel : Nat) :
    ∀ (s : SinkMock E) (w : Nat) (r : Poll (Except E Unit)) (s' : SinkMock E) (w' : Nat),
      SinkMock.pollFlushLoop fuel s w = .out r s' w' → wakeDiscipline r w w' := by
  induction fuel with
  | zero =>
    intro s w r s' w' h
    simp [SinkMock.pollFlushLoop] at h
  | succ n ih =>
    intro s w r s' w' h
    rw [SinkMock.pollFlushLoop] at h
    cases hfb : s.flush_feedback s.flush_pos with
    | none => rw [hfb] at h; simp at h
    | some v =>
      rw [hfb] at h
      cases v with
      | Pending =>
        simp at h
        obtain ⟨h1, -, h3⟩ := h
        subst h1; subst h3
        exact ⟨fun _ => rfl, fun hr => absurd rfl hr⟩
      | Ready res =>
        cases res with
        | error e =>
          simp at h
          obtain ⟨h1, -, h3⟩ := h
          subst h1; subst h3
          exact ⟨fun hp => (nomatch hp), fun _ => rfl⟩
        | ok u =>
          cases u
          simp only at h
          by_cases hc : s.item_cnt - s.flush_at_once = 0
          · rw [if_pos (by simpa using hc)] at h
            simp at h
            obtain ⟨h1, -, h3⟩ := h
            subst h1; subst h3
            exact ⟨fun hp => (nomatch hp), fun _ => rfl⟩
          · rw [if_neg (by simpa using hc)] at h
            exact ih _ _ _ _ _ h

/-- With a positive drain batch the loop needs at most `item_cnt + 1`
iterations, so fuel beyond the buffer size can never run out. -/
theorem pollFlushLoop_not_fuelOut {E : Type} (fuel : Nat) :
    ∀ (s : SinkMock E) (w : Nat), 0 < s.flush_at_once → s.item_cnt < fuel →
      SinkMock.pollFlushLoop fuel s w ≠ .fuelOut := by
  induction fuel with
  | zero =>
    intro s w _ hlt
    omega
  | succ n ih =>
    intro s w hpos hlt
    rw [SinkMock.pollFlushLoop]
    cases hfb : s.flush_feedback s.flush_pos with
    | none => simp
    | some v =>
      cases v with
      | Pending => simp
      | Ready res =>
        cases res with
        | error e => simp
        | ok u =>
          cases u
          simp only
          by_cases hc : s.item_cnt - s.flush_at_once = 0
          · rw [if_pos (by simpa using hc)]
            simp
          · rw [if_neg (by simpa using hc)]
            exact ih _ w (by simpa using hpos) (by simp; omega)

/-- With a zero drain batch, a nonempty buffer and an all-`Ready(Ok)`
flush script, the loop makes no progress: every fuel amount runs out. -/
theorem pollFlushLoop_zero_batch {E : Type} (fuel : Nat) :
    ∀ (s : SinkMock E) (w : Nat), s.flush_at_once = 0 → 0 < s.item_cnt →
      (∀ n, s.flush_feedback n = some (.Ready (.ok ()))) →
      SinkMock.pollFlushLoop fuel s w = .fuelOut := by
  induction fuel with
  | zero =>
    intro s w _ _ _
    rfl
  | succ n ih =>
    intro s w hz hpos hscript
    rw [SinkMock.pollFlushLoop, hscript s.flush_pos]
    simp only
    rw [if_neg (by simp [hz]; omega)]
    exact ih _ w (by simpa using hz) (by simp [hz]; omega) (by simpa using hscript)

/-- A `FuseLast` whose inner iterator is exhausted is a fixpoint of `next`. -/
theorem FuseLast.afterN_nil {α : Type} (n : Nat) :
    ∀ f : FuseLast α, f.iter = [] → f.afterN n = f := by
  induction n with
  | zero => intro f _; rfl
  | succ m ih =>
    intro f hf
    rw [FuseLast.afterN]
    have hnext : f.next.2 = f := by
      rw [FuseLast.next, hf]
    rw [hnext]
    exact ih f hf

/-! ### Claim theorems -/

/-- Claim C8 (confirmed): wrapping the two-element sequence `[a, b]`,
successive `next()` calls on `FuseLast` produce `a`, then `b`, then `b`
forever; wrapping an empty sequence, every `next()` call returns `None`
forever. -/
theorem C8_fuse_last_latches {α : Type} (a b : α) (n : Nat) :
    FuseLast.nthNext (FuseLast.new [a, b]) 0 = some a ∧
    (1 ≤ n → FuseLast.nthNext (FuseLast.new [a, b]) n = some b) ∧
    FuseLast.nthNext (FuseLast.new ([] : List α)) n = none := by
  refine ⟨rfl, ?_, ?_⟩
  · intro hn
    match n, hn with
    | 1, _ => rfl
    | m + 2, _ =>
      have h1 : FuseLast.afterN (FuseLast.new [a, b]) (m + 2) =
          FuseLast.afterN (⟨[], some b⟩ : FuseLast α) m := rfl
      rw [FuseLast.nthNext, h1, FuseLast.afterN_nil m _ rfl]
      rfl
  · rw [FuseLast.nthNext, FuseLast.afterN_nil n _ rfl]
    rfl

/-- Claim C8 witness: the latch evaluated on `[1, 2]` and on the empty
list at concrete read counts. -/
theorem C8_fuse_last_latches_witness :
    FuseLast.nthNext (FuseLast.new [1, 2]) 0 = some 1 ∧
    FuseLast.nthNext (FuseLast.new [1, 2]) 3 = some 2 ∧
    FuseLast.nthNext (FuseLast.new ([] : List Nat)) 3 = none :=
  ⟨(C8_fuse_last_latches 1 2 3).1, (C8_fuse_last_latches 1 2 3).2.1 (by decide),
    (C8_fuse_last_latches 1 2 3).2.2⟩

/-- Claim C6 (amended): a single `poll_flush` call terminates whenever
`flush_at_once` is positive — fuel `item_cnt + 1` loop iterations always
suffice for it to drain to 0, return on a scripted failure or `Pending`,
or fail on script exhaustion. -/
theorem C6_flush_terminates_pos_batch {E : Type} (fuel w : Nat) (s : SinkMock E)
    (hpos : 0 < s.flush_at_once) (hfuel : s.item_cnt < fuel) :
    SinkMock.poll_flush fuel s w ≠ .fuelOut := by
  cases hcl : s.is_closed with
  | true => simp [SinkMock.poll_flush, hcl]
  | false =>
    rw [SinkMock.poll_flush, if_neg (by simp [hcl])]
    exact pollFlushLoop_not_fuelOut fuel _ w (by simpa using hpos) (by simpa using hfuel)

/-- Claim C6 witness: on the default-configured mock (batch size 2,
empty buffer) one unit of fuel already precludes fuel exhaustion. -/
theorem C6_flush_terminates_pos_batch_witness :
    0 < mock0.flush_at_once ∧ mock0.item_cnt < 1 ∧
      SinkMock.poll_flush 1 mock0 0 ≠ .fuelOut :=
  ⟨by decide, by decide,
    C6_flush_terminates_pos_batch 1 0 mock0 (by decide) (by decide)⟩

/-- Claim C6 counterexample: `SinkMock::new` accepts `flush_at_once = 0`;
after one accepted submit the buffer holds one item, and with an
all-`Ready(Ok)` flush script `poll_flush` spins forever (every fuel
amount runs out), refuting "a single poll_flush call always terminates". -/
theorem C6_counterexample :
    SinkMock.poll_ready 1 mz0 0 = .out (.Ready (.ok ())) mz1 0 ∧
    SinkMock.start_send mz1 = .out (.ok ()) mz2 ∧
    flushDiverges mz2 0 := by
  refine ⟨rfl, rfl, ?_⟩
  intro fuel
  have h : SinkMock.poll_flush fuel mz2 0 =
      SinkMock.pollFlushLoop fuel { mz2 with can_start_send := false } 0 := rfl
  rw [h]
  exact pollFlushLoop_zero_batch fuel _ 0 rfl (by decide) (fun n => rfl)

/-- Claim C10 (confirmed): on a mock whose buffered count is already 0,
`poll_flush` still consumes exactly one flush-feedback value: a next
value of `Ready(Ok(()))` yields `Ready(Ok(()))` with the script advanced
by one, and an exhausted script makes even the flush of an empty buffer
fatal. -/
theorem C10_empty_buffer_still_consumes {E : Type} (fuel w : Nat) (s : SinkMock E)
    (hopen : s.is_closed = false) (hcnt : s.item_cnt = 0) :
    (s.flush_feedback s.flush_pos = some (.Ready (.ok ())) →
      SinkMock.poll_flush (fuel + 1) s w =
        .out (.Ready (.ok ()))
          { s with can_start_send := false, flush_pos := s.flush_pos + 1,
                   item_cnt := 0 } w) ∧
    (s.flush_feedback s.flush_pos = none →
      SinkMock.poll_flush (fuel + 1) s w = .panic .flushFeedbackExhausted) := by
  constructor
  · intro hfb
    rw [SinkMock.poll_flush, if_neg (by simp [hopen]), SinkMock.pollFlushLoop]
    simp [hfb, hcnt]
  · intro hfb
    rw [SinkMock.poll_flush, if_neg (by simp [hopen]), SinkMock.pollFlushLoop]
    simp [hfb]

/-- Claim C10 witness: the always-Ok mock flushes its empty buffer by
consuming one value; the empty-script mock panics on the same call. -/
theorem C10_empty_buffer_still_consumes_witness :
    SinkMock.poll_flush 1 mock0 0 =
      .out (.Ready (.ok ())) { mock0 with flush_pos := 1 } 0 ∧
    SinkMock.poll_flush 1 mockNoFlush 0 = .panic .flushFeedbackExhausted :=
  ⟨(C10_empty_buffer_still_consumes 0 0 mock0 rfl rfl).1 rfl,
    (C10_empty_buffer_still_consumes 0 0 mockNoFlush rfl rfl).2 rfl⟩

/-- Claim C3 (confirmed): each `poll_flush` iteration reads the next
flush-feedback value; on `Ready(Ok(()))` it saturating-subtracts
`flush_at_once` from `item_cnt`, returning `Ready(Ok(()))` exactly when
the count reaches 0 and looping (consuming another value) otherwise; on
`Ready(Err(e))` it returns the error immediately with the drains of the
earlier iterations already applied; on `Pending` it wakes the waker and
returns `Pending` immediately. -/
theorem C3_poll_flush_iteration {E : Type} (fuel w : Nat) (s : SinkMock E)
    (hopen : s.is_closed = false) :
    (s.flush_feedback s.flush_pos = some (.Ready (.ok ())) →
      s.item_cnt - s.flush_at_once = 0 →
      SinkMock.poll_flush (fuel + 1) s w =
        .out (.Ready (.ok ()))
          { s with can_start_send := false, flush_pos := s.flush_pos + 1,
                   item_cnt := s.item_cnt - s.flush_at_once } w) ∧
    (s.flush_feedback s.flush_pos = some (.Ready (.ok ())) →
      s.item_cnt - s.flush_at_once ≠ 0 →
      SinkMock.poll_flush (fuel + 1) s w =
        SinkMock.poll_flush fuel
          { s with can_start_send := false, flush_pos := s.flush_pos + 1,
                   item_cnt := s.item_cnt - s.flush_at_once } w) ∧
    (∀ e : E, s.flush_feedback s.flush_pos = some (.Ready (.error e)) →
      SinkMock.poll_flush (fuel + 1) s w =
        .out (.Ready (.error e))
          { s with can_start_send := false, flush_pos := s.flush_pos + 1 } w) ∧
    (s.flush_feedback s.flush_pos = some .Pending →
      SinkMock.poll_flush (fuel + 1) s w =
        .out .Pending
          { s with can_start_send := false, flush_pos := s.flush_pos + 1 } (w + 1)) := by
  refine ⟨?_, ?_, ?_, ?_⟩
  · intro hfb hc
    rw [SinkMock.poll_flush, if_neg (by simp [hopen]), SinkMock.pollFlushLoop]
    simp [hfb, hc]
  · intro hfb hc
    rw [SinkMock.poll_flush, if_neg (by simp [hopen]), SinkMock.pollFlushLoop]
    simp only [hfb]
    rw [if_neg (by simpa using hc)]
    rw [SinkMock.poll_flush, if_neg (by simp [hopen])]
  · intro e hfb
    rw [SinkMock.poll_flush, if_neg (by simp [hopen]), SinkMock.pollFlushLoop]
    simp [hfb]
  · intro hfb
    rw [SinkMock.poll_flush, if_neg (by simp [hopen]), SinkMock.pollFlushLoop]
    simp [hfb]

/-- Claim C3 witness: one drain step empties `mock0` (already at count
0, `0 - 2 = 0`), and a scripted `Pending` returns immediately after
waking the waker once. -/
theorem C3_poll_flush_iteration_witness :
    SinkMock.poll_flush 1 mock0 0 =
      .out (.Ready (.ok ())) { mock0 with flush_pos := 1 } 0 ∧
    SinkMock.poll_flush 1 mockPend 0 =
      .out .Pending { mockPend with flush_pos := 1 } 1 :=
  ⟨(C3_poll_flush_iteration 0 0 mock0 rfl).1 rfl rfl,
    (C3_poll_flush_iteration 0 0 mockPend rfl).2.2.2 rfl⟩

/-- Claim C4 (confirmed): `poll_ready` first clears the arming flag;
a scripted readiness error is returned with `item_cnt` untouched; with
room in the buffer it arms and returns `Ready(Ok(()))`; with a full
buffer it delegates to `poll_flush`, arming exactly on that flush's
`Ready(Ok(()))` outcome and forwarding any other flush outcome
unchanged and unarmed. -/
theorem C4_poll_ready_behavior {E : Type} (fuel w : Nat) (s : SinkMock E)
    (hopen : s.is_closed = false) :
    (∀ e : E, s.ready_fallback s.ready_pos = some e →
      SinkMock.poll_ready fuel s w =
        .out (.Ready (.error e))
          { s with can_start_send := false, ready_pos := s.ready_pos + 1 } w) ∧
    (s.ready_fallback s.ready_pos = none → s.item_cnt < s.max_item →
      SinkMock.poll_ready fuel s w =
        .out (.Ready (.ok ()))
          { s with can_start_send := true, ready_pos := s.ready_pos + 1 } w) ∧
    (∀ s₂ w₂, s.ready_fallback s.ready_pos = none → ¬ s.item_cnt < s.max_item →
      SinkMock.poll_flush fuel
          { s with can_start_send := false, ready_pos := s.ready_pos + 1 } w =
        .out (.Ready (.ok ())) s₂ w₂ →
      SinkMock.poll_ready fuel s w =
        .out (.Ready (.ok ())) { s₂ with can_start_send := true } w₂) ∧
    (∀ (r : Poll (Except E Unit)) s₂ w₂,
      s.ready_fallback s.ready_pos = none → ¬ s.item_cnt < s.max_item →
      SinkMock.poll_flush fuel
          { s with can_start_send := false, ready_pos := s.ready_pos + 1 } w =
        .out r s₂ w₂ → r ≠ .Ready (.ok ()) →
      SinkMock.poll_ready fuel s w = .out r s₂ w₂ ∧ s₂.can_start_send = false) := by
  refine ⟨?_, ?_, ?_, ?_⟩
  · intro e hre
    rw [SinkMock.poll_ready, if_neg (by simp [hopen])]
    simp [hre]
  · intro hre hlt
    rw [SinkMock.poll_ready, if_neg (by simp [hopen])]
    simp [hre, hlt]
  · intro s₂ w₂ hre hge hflush
    rw [SinkMock.poll_ready, if_neg (by simp [hopen])]
    simp only [hre]
    rw [if_neg (by simpa using hge), hflush]
  · intro r s₂ w₂ hre hge hflush hr
    have hflag : s₂.can_start_send = false := by
      rw [SinkMock.poll_flush, if_neg (by simp [hopen])] at hflush
      exact (pollFlushLoop_preserves fuel _ w r s₂ w₂ hflush).2.1
    refine ⟨?_, hflag⟩
    rw [SinkMock.poll_ready, if_neg (by simp [hopen])]
    simp only [hre]
    rw [if_neg (by simpa using hge), hflush]
    cases r with
    | Pending => rfl
    | Ready res =>
      cases res with
      | error e => rfl
      | ok u => cases u; exact absurd rfl hr

/-- Claim C4 witness: the four branches evaluated on concrete mocks —
scripted readiness error, room in the buffer, full buffer with a
draining flush, and full buffer with a `Pending` flush. -/
theorem C4_poll_ready_behavior_witness :
    SinkMock.poll_ready 1 mockRErr 0 =
      .out (.Ready (.error ())) { mockRErr with ready_pos := 1 } 0 ∧
    SinkMock.poll_ready 1 mock0 0 = .out (.Ready (.ok ())) mock1 0 ∧
    SinkMock.poll_ready 2 mockFull 0 =
      .out (.Ready (.ok ()))
        { mockFull with ready_pos := 1, flush_pos := 2, item_cnt := 0,
                        can_start_send := true } 0 ∧
    (SinkMock.poll_ready 1 mockFullPend 0 =
      .out .Pending { mockFullPend with ready_pos := 1, flush_pos := 1 } 1 ∧
      ({ mockFullPend with ready_pos := 1, flush_pos := 1 } :
        SinkMock Unit).can_start_send = false) :=
  ⟨(C4_poll_ready_behavior 1 0 mockRErr rfl).1 () rfl,
    (C4_poll_ready_behavior 1 0 mock0 rfl).2.1 rfl (by decide),
    (C4_poll_ready_behavior 2 0 mockFull rfl).2.2.1 _ 0 rfl (by decide) rfl,
    (C4_poll_ready_behavior 1 0 mockFullPend rfl).2.2.2 .Pending _ 1 rfl (by decide)
      rfl (fun h => nomatch h)⟩

/-- Claim C5 (confirmed): `poll_close` returns `Ready(Ok(()))` and sets
`is_closed` exactly when the internal `poll_flush` returns
`Ready(Ok(()))`; any other flush outcome is forwarded with its state
unchanged, `is_closed` stays false and the buffered count is whatever
the partial flush left, so close may be retried. -/
theorem C5_poll_close_behavior {E : Type} (fuel w : Nat) (s : SinkMock E)
    (hopen : s.is_closed = false) :
    (∀ s' w', SinkMock.poll_flush fuel s w = .out (.Ready (.ok ())) s' w' →
      SinkMock.poll_close fuel s w =
        .out (.Ready (.ok ())) { s' with is_closed := true } w') ∧
    (∀ (r : Poll (Except E Unit)) s' w',
      SinkMock.poll_flush fuel s w = .out r s' w' → r ≠ .Ready (.ok ()) →
      SinkMock.poll_close fuel s w = .out r s' w' ∧ s'.is_closed = false) := by
  constructor
  · intro s' w' hflush
    rw [SinkMock.poll_close, if_neg (by simp [hopen]), hflush]
  · intro r s' w' hflush hr
    have hcl : s'.is_closed = false := by
      rw [SinkMock.poll_flush, if_neg (by simp [hopen])] at hflush
      rw [(pollFlushLoop_preserves fuel _ w r s' w' hflush).1]
      simpa using hopen
    refine ⟨?_, hcl⟩
    rw [SinkMock.poll_close, if_neg (by simp [hopen]), hflush]
    cases r with
    | Pending => rfl
    | Ready res =>
      cases res with
      | error e => rfl
      | ok u => cases u; exact absurd rfl hr

/-- Claim C5 witness: closing `mock0` (drains in one step) marks it
closed; closing `mockPend` forwards the `Pending` and stays open. -/
theorem C5_poll_close_behavior_witness :
    SinkMock.poll_close 1 mock0 0 =
      .out (.Ready (.ok ())) { mock0 with flush_pos := 1, is_closed := true } 0 ∧
    (SinkMock.poll_close 1 mockPend 0 =
      .out .Pending { mockPend with flush_pos := 1 } 1 ∧
      ({ mockPend with flush_pos := 1 } : SinkMock Unit).is_closed = false) :=
  ⟨(C5_poll_close_behavior 1 0 mock0 rfl).1 _ 0 rfl,
    (C5_poll_close_behavior 1 0 mockPend rfl).2 .Pending _ 1 rfl (fun h => nomatch h)⟩

/-- Claim C1 counterexample: after a single successful `poll_ready`, a
first `start_send` succeeds and — contrary to the claim that the arming
flag is consumed by submit — a second `start_send` with no intervening
`poll_ready` also succeeds (returns `Ok`, does not panic). -/
theorem C1_counterexample :
    SinkMock.poll_ready 1 mock0 0 = .out (.Ready (.ok ())) mock1 0 ∧
    SinkMock.start_send mock1 = .out (.ok ()) mock2 ∧
    SinkMock.start_send mock2 = .out (.ok ()) mock3 ∧
    SinkMock.start_send mock2 ≠ .panic .startSendWithoutReady :=
  ⟨rfl, rfl, rfl, fun h => nomatch h⟩

/-- Claim C1 (amended): `start_send` panics exactly when the arming
flag `can_start_send` is unset (in particular on a freshly constructed
mock, before any `poll_ready`); a `poll_ready` returning `Ready(Ok(()))`
sets the flag; but the flag is NOT consumed by `start_send` — every
successful `start_send` both requires and preserves it, so repeated
submits after one successful readiness check are accepted. -/
theorem C1_start_send_arming {E : Type} :
    (∀ (fI : Nat → Option (Poll (Except E Unit))) (rI sI : Nat → Option E) (m f : Nat),
      SinkMock.start_send (SinkMock.new fI rI sI m f) = .panic .startSendWithoutReady) ∧
    (∀ s : SinkMock E, s.is_closed = false → s.can_start_send = false →
      SinkMock.start_send s = .panic .startSendWithoutReady) ∧
    (∀ (fuel w : Nat) (s s' : SinkMock E) (w' : Nat), s.is_closed = false →
      SinkMock.poll_ready fuel s w = .out (.Ready (.ok ())) s' w' →
      s'.can_start_send = true) ∧
    (∀ (s : SinkMock E) (r : Except E Unit) (s' : SinkMock E),
      SinkMock.start_send s = .out r s' →
      s.can_start_send = true ∧ s'.can_start_send = true) ∧
    (∀ s : SinkMock E, s.is_closed = false → s.can_start_send = true →
      ∀ q : Panic, SinkMock.start_send s ≠ .panic q) := by
  refine ⟨fun _ _ _ _ _ => rfl, ?_, ?_, ?_, ?_⟩
  · intro s h1 h2
    rw [SinkMock.start_send, if_neg (by simp [h1]), if_pos (by simp [h2])]
  · intro fuel w s s' w' h1 h2
    rw [SinkMock.poll_ready, if_neg (by simp [h1])] at h2
    cases hre : s.ready_fallback s.ready_pos with
    | some e => simp [hre] at h2
    | none =>
      simp only [hre] at h2
      by_cases hlt : s.item_cnt < s.max_item
      · rw [if_pos (by simpa using hlt)] at h2
        injection h2 with hr hs hw
        rw [← hs]
      · rw [if_neg (by simpa using hlt)] at h2
        cases hfl : SinkMock.poll_flush fuel
            { s with can_start_send := false, ready_pos := s.ready_pos + 1 } w with
        | panic p => rw [hfl] at h2; simp at h2
        | fuelOut => rw [hfl] at h2; simp at h2
        | out r s₂ w₂ =>
          rw [hfl] at h2
          cases r with
          | Pending => simp at h2
          | Ready res =>
            cases res with
            | error e => simp at h2
            | ok u =>
              cases u
              simp at h2
              obtain ⟨h2, -⟩ := h2
              subst h2
              rfl
  · intro s r s' h
    rw [SinkMock.start_send] at h
    by_cases h1 : s.is_closed = true
    · rw [if_pos h1] at h; simp at h
    · rw [if_neg h1] at h
      by_cases h2 : s.can_start_send = true
      · rw [if_neg (by simp [h2])] at h
        refine ⟨h2, ?_⟩
        cases hsf : s.send_fallback s.send_pos with
        | some e =>
          rw [hsf] at h
          injection h with hr hs
          rw [← hs]
          simpa using h2
        | none =>
          rw [hsf] at h
          injection h with hr hs
          rw [← hs]
          simpa using h2
      · rw [if_pos (by simp at h2 ⊢; exact h2)] at h
        simp at h
  · intro s h1 h2 q
    rw [SinkMock.start_send, if_neg (by simp [h1]), if_neg (by simp [h2])]
    cases hsf : s.send_fallback s.send_pos with
    | some e => simp
    | none => simp

/-- Claim C1 witness: on the fresh mock `start_send` panics; after the
successful `poll_ready` that produces `mock1` the flag is set. -/
theorem C1_start_send_arming_witness :
    SinkMock.start_send mock0 = .panic .startSendWithoutReady ∧
    mock1.can_start_send = true :=
  ⟨(C1_start_send_arming (E := Unit)).2.1 mock0 rfl rfl,
    (C1_start_send_arming (E := Unit)).2.2.1 1 0 mock0 mock1 0 rfl rfl⟩

/-- Claim C2 counterexample: on the discard mock `SinkFeedback`,
`poll_close` returns `Ready(Ok(()))`, yet the next `poll_ready` and
`start_send` simply keep consuming the scripts and succeed — they are
not fatal, contrary to the claim for "every mock". -/
theorem C2_counterexample :
    SinkFeedback.poll_close fbOk 0 = .out (.Ready (.ok ())) fbOk1 0 ∧
    SinkFeedback.poll_ready fbOk1 0 =
      .out (.Ready (.ok ())) { fbOk1 with poll_pos := 2 } 0 ∧
    SinkFeedback.start_send fbOk1 = .out (.ok ()) { fbOk1 with ss_pos := 1 } ∧
    SinkFeedback.poll_ready fbOk1 0 ≠ .panic .pollFallbackExhausted :=
  ⟨rfl, rfl, rfl, fun h => nomatch h⟩

/-- Claim C2 (amended): for the bounded-buffer `SinkMock`, once
`poll_close` has returned `Ready(Ok(()))` the closed flag is set and
every subsequent operation panics.  The discard `SinkFeedback` keeps no
closed state: after a successful `poll_close`, subsequent operations are
not fatal as long as their script still yields a value (the only
possible panic is script exhaustion). -/
theorem C2_closed_is_terminal {E : Type} (fuel w : Nat) (s : SinkMock E)
    (fb : SinkFeedback E) :
    (s.is_closed = true →
      SinkMock.poll_ready fuel s w = .panic .closedSink ∧
      SinkMock.start_send s = .panic .closedSink ∧
      SinkMock.poll_flush fuel s w = .panic .closedSink ∧
      SinkMock.poll_close fuel s w = .panic .closedSink) ∧
    (∀ (s' : SinkMock E) (w' : Nat), s.is_closed = false →
      SinkMock.poll_close fuel s w = .out (.Ready (.ok ())) s' w' →
      s'.is_closed = true) ∧
    (∀ (fb' : SinkFeedback E) (w' w'' : Nat) (v : Poll (Except E Unit)) (q : Panic),
      SinkFeedback.poll_close fb w = .out (.Ready (.ok ())) fb' w' →
      fb'.poll_fallback fb'.poll_pos = some v →
      SinkFeedback.poll_ready fb' w'' ≠ .panic q ∧
        SinkFeedback.poll_flush fb' w'' ≠ .panic q ∧
        SinkFeedback.poll_close fb' w'' ≠ .panic q) ∧
    (∀ (fb' : SinkFeedback E) (w' : Nat) (rv : Except E Unit) (q : Panic),
      SinkFeedback.poll_close fb w = .out (.Ready (.ok ())) fb' w' →
      fb'.start_send_fallback fb'.ss_pos = some rv →
      SinkFeedback.start_send fb' ≠ .panic q) := by
  refine ⟨?_, ?_, ?_, ?_⟩
  · intro h
    exact ⟨by rw [SinkMock.poll_ready, if_pos (by simp [h])],
      by rw [SinkMock.start_send, if_pos (by simp [h])],
      by rw [SinkMock.poll_flush, if_pos (by simp [h])],
      by rw [SinkMock.poll_close, if_pos (by simp [h])]⟩
  · intro s' w' hopen h
    rw [SinkMock.poll_close, if_neg (by simp [hopen])] at h
    cases hfl : SinkMock.poll_flush fuel s w with
    | panic p => rw [hfl] at h; simp at h
    | fuelOut => rw [hfl] at h; simp at h
    | out r s₂ w₂ =>
      rw [hfl] at h
      cases r with
      | Pending => simp at h
      | Ready res =>
        cases res with
        | error e => simp at h
        | ok u =>
          cases u
          simp at h
          obtain ⟨h, -⟩ := h
          subst h
          rfl
  · intro fb' w' w'' v q _ hv
    have hready : ∀ p : Panic, SinkFeedback.poll_ready fb' w'' ≠ .panic p := by
      intro p h
      rw [SinkFeedback.poll_ready, hv] at h
      cases v with
      | Pending => simp at h
      | Ready t => simp at h
    exact ⟨hready q, hready q, hready q⟩
  · intro fb' w' rv q _ hv h
    rw [SinkFeedback.start_send, hv] at h
    simp at h

/-- Claim C2 witness: on the closed mock state every operation panics;
closing `mock0` yields a state whose closed flag is set; and the
discard mock's `poll_ready` after a successful close is not the
closed-sink panic. -/
theorem C2_closed_is_terminal_witness :
    SinkMock.poll_ready 1 mockClosed 0 = .panic .closedSink ∧
    SinkMock.start_send mockClosed = .panic .closedSink ∧
    SinkMock.poll_flush 1 mockClosed 0 = .panic .closedSink ∧
    SinkMock.poll_close 1 mockClosed 0 = .panic .closedSink ∧
    ({ mock0 with flush_pos := 1, is_closed := true } : SinkMock Unit).is_closed = true ∧
    SinkFeedback.poll_ready fbOk1 0 ≠ .panic .closedSink :=
  ⟨((C2_closed_is_terminal 1 0 mockClosed fbOk).1 rfl).1,
    ((C2_closed_is_terminal 1 0 mockClosed fbOk).1 rfl).2.1,
    ((C2_closed_is_terminal 1 0 mockClosed fbOk).1 rfl).2.2.1,
    ((C2_closed_is_terminal 1 0 mockClosed fbOk).1 rfl).2.2.2,
    (C2_closed_is_terminal 1 0 mock0 fbOk).2.1 _ 0 rfl rfl,
    ((C2_closed_is_terminal 1 0 mock0 fbOk).2.2.1 fbOk1 0 0 (.Ready (.ok ()))
      .closedSink rfl rfl).1⟩

/-- Claim C7 counterexample: `mock0`'s readiness-error and submit-error
scripts are empty, so both reads go past the last element, yet
`poll_ready` returns `Ready(Ok(()))` and `start_send` buffers the item —
neither is fatal, contrary to the claim for "all three sequences". -/
theorem C7_counterexample :
    mock0.ready_fallback mock0.ready_pos = none ∧
    SinkMock.poll_ready 1 mock0 0 = .out (.Ready (.ok ())) mock1 0 ∧
    mock1.send_fallback mock1.send_pos = none ∧
    SinkMock.start_send mock1 = .out (.ok ()) mock2 :=
  ⟨rfl, rfl, rfl, rfl⟩

/-- Claim C7 (amended): reading a scripted sequence past its last
element is fatal for `SinkMock`'s flush-outcome sequence and for both
of `SinkFeedback`'s sequences; exhaustion of `SinkMock`'s
readiness-error and submit-error sequences is not fatal — it means "no
error injected" (readiness succeeds, the submit is buffered). -/
theorem C7_script_exhaustion {E : Type} (fuel w : Nat) (s : SinkMock E)
    (fb : SinkFeedback E) :
    (s.is_closed = false → s.flush_feedback s.flush_pos = none →
      SinkMock.poll_flush (fuel + 1) s w = .panic .flushFeedbackExhausted) ∧
    (fb.poll_fallback fb.poll_pos = none →
      SinkFeedback.poll_ready fb w = .panic .pollFallbackExhausted ∧
      SinkFeedback.poll_flush fb w = .panic .pollFallbackExhausted ∧
      SinkFeedback.poll_close fb w = .panic .pollFallbackExhausted) ∧
    (fb.start_send_fallback fb.ss_pos = none →
      SinkFeedback.start_send fb = .panic .startSendFallbackExhausted) ∧
    (s.is_closed = false → s.ready_fallback s.ready_pos = none →
      s.item_cnt < s.max_item →
      SinkMock.poll_ready fuel s w =
        .out (.Ready (.ok ()))
          { s with can_start_send := true, ready_pos := s.ready_pos + 1 } w) ∧
    (s.is_closed = false → s.can_start_send = true →
      s.send_fallback s.send_pos = none →
      SinkMock.start_send s =
        .out (.ok ()) { s with send_pos := s.send_pos + 1,
                               item_cnt := s.item_cnt + 1 }) := by
  refine ⟨?_, ?_, ?_, ?_, ?_⟩
  · intro hopen hfb
    rw [SinkMock.poll_flush, if_neg (by simp [hopen]), SinkMock.pollFlushLoop]
    simp [hfb]
  · intro hv
    have h : SinkFeedback.poll_ready fb w = .panic .pollFallbackExhausted := by
      rw [SinkFeedback.poll_ready, hv]
    exact ⟨h, h, h⟩
  · intro hv
    rw [SinkFeedback.start_send, hv]
  · intro hopen hre hlt
    rw [SinkMock.poll_ready, if_neg (by simp [hopen])]
    simp [hre, hlt]
  · intro hopen hflag hsf
    rw [SinkMock.start_send, if_neg (by simp [hopen]), if_neg (by simp [hflag]), hsf]

/-- Claim C7 witness: the flush script of `mockNoFlush`, the poll script
of `fbNoPoll` and the submit script of `fbNoSS` are exhausted and each
read of them panics; the exhausted readiness script of `mock0` does not. -/
theorem C7_script_exhaustion_witness :
    SinkMock.poll_flush 1 mockNoFlush 0 = .panic .flushFeedbackExhausted ∧
    SinkFeedback.poll_ready fbNoPoll 0 = .panic .pollFallbackExhausted ∧
    SinkFeedback.start_send fbNoSS = .panic .startSendFallbackExhausted ∧
    SinkMock.poll_ready 1 mock0 0 = .out (.Ready (.ok ())) mock1 0 :=
  ⟨(C7_script_exhaustion 0 0 mockNoFlush fbNoPoll).1 rfl rfl,
    ((C7_script_exhaustion 1 0 mock0 fbNoPoll).2.1 rfl).1,
    (C7_script_exhaustion 1 0 mock0 fbNoSS).2.2.1 rfl,
    (C7_script_exhaustion 1 0 mock0 fbNoPoll).2.2.2.1 rfl rfl (by decide)⟩

/-- Claim C9 (confirmed): every poll operation of both mocks that
returns `Pending` has woken the waker exactly once, synchronously,
before returning, and every poll operation that returns a `Ready`
result has not woken it at all. -/
theorem C9_wake_discipline {E : Type} (fuel w : Nat) (s : SinkMock E)
    (fb : SinkFeedback E) :
    (∀ (r : Poll (Except E Unit)) (s' : SinkMock E) (w' : Nat),
      SinkMock.poll_ready fuel s w = .out r s' w' → wakeDiscipline r w w') ∧
    (∀ (r : Poll (Except E Unit)) (s' : SinkMock E) (w' : Nat),
      SinkMock.poll_flush fuel s w = .out r s' w' → wakeDiscipline r w w') ∧
    (∀ (r : Poll (Except E Unit)) (s' : SinkMock E) (w' : Nat),
      SinkMock.poll_close fuel s w = .out r s' w' → wakeDiscipline r w w') ∧
    (∀ (r : Poll (Except E Unit)) (fb' : SinkFeedback E) (w' : Nat),
      SinkFeedback.poll_ready fb w = .out r fb' w' → wakeDiscipline r w w') ∧
    (∀ (r : Poll (Except E Unit)) (fb' : SinkFeedback E) (w' : Nat),
      SinkFeedback.poll_flush fb w = .out r fb' w' → wakeDiscipline r w w') ∧
    (∀ (r : Poll (Except E Unit)) (fb' : SinkFeedback E) (w' : Nat),
      SinkFeedback.poll_close fb w = .out r fb' w' → wakeDiscipline r w w') := by
  have hfl : ∀ (t : SinkMock E) (r : Poll (Except E Unit)) (s' : SinkMock E) (w' : Nat),
      SinkMock.poll_flush fuel t w = .out r s' w' → wakeDiscipline r w w' := by
    intro t r s' w' h
    rw [SinkMock.poll_flush] at h
    by_cases hcl : t.is_closed = true
    · rw [if_pos hcl] at h; simp at h
    · rw [if_neg hcl] at h
      exact pollFlushLoop_wakes fuel _ w r s' w' h
  have hfb : ∀ (g : SinkFeedback E) (r : Poll (Except E Unit)) (fb' : SinkFeedback E)
      (w' : Nat), SinkFeedback.poll_ready g w = .out r fb' w' → wakeDiscipline r w w' := by
    intro g r fb' w' h
    rw [SinkFeedback.poll_ready] at h
    cases hv : g.poll_fallback g.poll_pos with
    | none => rw [hv] at h; simp at h
    | some v =>
      rw [hv] at h
      cases v with
      | Pending =>
        simp at h
        obtain ⟨h1, -, h3⟩ := h
        subst h1; subst h3
        exact ⟨fun _ => rfl, fun hr => absurd rfl hr⟩
      | Ready t =>
        simp at h
        obtain ⟨h1, -, h3⟩ := h
        subst h1; subst h3
        exact ⟨fun hp => (nomatch hp), fun _ => rfl⟩
  refine ⟨?_, hfl s, ?_, hfb fb, hfb fb, hfb fb⟩
  · intro r s' w' h
    rw [SinkMock.poll_ready] at h
    by_cases hcl : s.is_closed = true
    · rw [if_pos hcl] at h; simp at h
    · rw [if_neg hcl] at h
      cases hre : s.ready_fallback s.ready_pos with
      | some e =>
        simp [hre] at h
        obtain ⟨h1, -, h3⟩ := h
        subst h1; subst h3
        exact ⟨fun hp => (nomatch hp), fun _ => rfl⟩
      | none =>
        simp only [hre] at h
        by_cases hlt : s.item_cnt < s.max_item
        · rw [if_pos (by simpa using hlt)] at h
          simp at h
          obtain ⟨h1, -, h3⟩ := h
          subst h1; subst h3
          exact ⟨fun hp => (nomatch hp), fun _ => rfl⟩
        · rw [if_neg (by simpa using hlt)] at h
          cases hflp : SinkMock.poll_flush fuel
              { s with can_start_send := false, ready_pos := s.ready_pos + 1 } w with
          | panic p => rw [hflp] at h; simp at h
          | fuelOut => rw [hflp] at h; simp at h
          | out r₂ s₂ w₂ =>
            rw [hflp] at h
            cases r₂ with
            | Pending =>
              simp at h
              obtain ⟨h1, -, h3⟩ := h
              subst h1; subst h3
              exact hfl _ _ _ _ hflp
            | Ready res =>
              cases res with
              | error e =>
                simp at h
                obtain ⟨h1, -, h3⟩ := h
                subst h1; subst h3
                exact hfl _ _ _ _ hflp
              | ok u =>
                cases u
                simp at h
                obtain ⟨h1, -, h3⟩ := h
                subst h1; subst h3
                exact hfl _ _ _ _ hflp
  · intro r s' w' h
    rw [SinkMock.poll_close] at h
    by_cases hcl : s.is_closed = true
    · rw [if_pos hcl] at h; simp at h
    · rw [if_neg hcl] at h
      cases hflp : SinkMock.poll_flush fuel s w with
      | panic p => rw [hflp] at h; simp at h
      | fuelOut => rw [hflp] at h; simp at h
      | out r₂ s₂ w₂ =>
        rw [hflp] at h
        cases r₂ with
        | Pending =>
          simp at h
          obtain ⟨h1, -, h3⟩ := h
          subst h1; subst h3
          exact hfl _ _ _ _ hflp
        | Ready res =>
          cases res with
          | error e =>
            simp at h
            obtain ⟨h1, -, h3⟩ := h
            subst h1; subst h3
            exact hfl _ _ _ _ hflp
          | ok u =>
            cases u
            simp at h
            obtain ⟨h1, -, h3⟩ := h
            subst h1; subst h3
            exact hfl _ _ _ _ hflp

/-- Claim C9 witness: a scripted `Pending` on the discard mock wakes
the counter from 0 to 1; a draining flush on `mock0` leaves it at 0. -/
theorem C9_wake_discipline_witness :
    wakeDiscipline (Poll.Pending : Poll (Except Unit Unit)) 0 1 ∧
    wakeDiscipline (Poll.Ready (Except.ok ()) : Poll (Except Unit Unit)) 0 0 :=
  ⟨(C9_wake_discipline 1 0 mockPend fbPend).2.2.2.1 .Pending
      { fbPend with poll_pos := 1 } 1 rfl,
    (C9_wake_discipline 1 0 mock0 fbPend).2.1 (.Ready (.ok ()))
      { mock0 with flush_pos := 1 } 0 rfl⟩

end FuturesTestSink
